import Mathlib

/-!
Shallow embedding of `src/main_controller.py` (Webots e-puck wall-following
controller).  Machine floats are modelled as exact rationals (the claims about
telemetry are stated "up to IEEE-754 rounding", so `ℚ` is the intended
arithmetic).  The external robot platform (proximity sensors, the
`robot.step` return values, and the simulation clock `robot.getTime`) is an
oracle `Env`; sensors are indexed by the number of `main_navigation` calls so
far, step results by the number of `robot.step` calls so far, and the clock by
the number of `robot.step` calls so far.
-/

/-- Constant `STEP_DURATION = 64` (milliseconds), line 7 of the source. -/
def STEP_DURATION : ℕ := 64

/-- Constant `SPEED_LIMIT = 6.28` (rad/s), line 8 of the source. -/
def SPEED_LIMIT : ℚ := 6.28

/-- Constant `REPORT_INTERVAL = 10.0` (seconds), line 135 of the source. -/
def REPORT_INTERVAL : ℚ := 10.0

/-- Constant `MAX_STUCK = 50`, line 185 of the source. -/
def MAX_STUCK : ℕ := 50

/-- One fresh read of the three proximity sensors consumed by
`main_navigation` (source lines 149-151): `get_prox(0)`, `get_prox(7)`,
`get_prox(2)`. -/
structure Snapshot where
  left_front : ℚ
  right_front : ℚ
  right_side : ℚ

/-- One line of a report, as printed to the console / written to the file by
`show_current_results` (source lines 95-119).  Values are kept structured
rather than formatted with `%.2f`. -/
inductive ReportLine where
  | header (isFinal : Bool)
  | elapsed (t : ℚ)
  | distance (d : ℚ)
  | collisions (n : ℕ)
  | goalReached (b : Bool)
  | statusLine (s : String)
  | stuckIters (n : ℕ)

/-- The data of one report event produced by `show_current_results`:
elapsed time `now - start`, the metrics, and the status string
(`"Atascado"` when `stuck_loops >= MAX_STUCK`, else `"Navegando"`). -/
structure Report where
  isFinal : Bool
  totalTime : ℚ
  travelled : ℚ
  crashes : ℕ
  goalDone : Bool
  status : String
  stuckLoops : ℕ

/-- The console rendition of a report (source lines 95-102): header, elapsed
time, distance, collisions, goal flag, status line.  The stuck-loop counter is
not printed to the console. -/
def consoleLines (r : Report) : List ReportLine :=
  [ ReportLine.header r.isFinal,
    ReportLine.elapsed r.totalTime,
    ReportLine.distance r.travelled,
    ReportLine.collisions r.crashes,
    ReportLine.goalReached r.goalDone,
    ReportLine.statusLine r.status ]

/-- The file rendition of a report (source lines 111-119): the same block plus
the `Iteraciones atascado` line, written for periodic and final reports
alike. -/
def fileLines (r : Report) : List ReportLine :=
  consoleLines r ++ [ ReportLine.stuckIters r.stuckLoops ]

/-- The module-level mutable state of the controller: the metrics globals
(lines 129-135), the currently commanded wheel velocities, the indicator
pattern last applied by `update_leds`, plus instrumentation for the oracle
(`stepsTaken` counts `robot.step` calls, `decisions` counts `main_navigation`
calls) and the list of reports emitted so far. -/
structure CtrlState where
  crashes : ℕ
  goalDone : Bool
  stuckLoops : ℕ
  travelled : ℚ
  start : ℚ
  lastReportTime : ℚ
  motorLeft : ℚ
  motorRight : ℚ
  ledPattern : List ℕ
  stepsTaken : ℕ
  decisions : ℕ
  reports : List Report

/-- The external robot platform: `sense i` is the snapshot read by the
`i`-th call of `main_navigation`, `stepResult n` the value returned by the
`n`-th `robot.step` call, and `timeAt n` the value of `robot.getTime()` once
`n` step calls have been made. -/
structure Env where
  sense : ℕ → Snapshot
  stepResult : ℕ → Int
  timeAt : ℕ → ℚ

/-- The `led_patterns` table of `update_leds` (source lines 48-56), including
the all-zero default for an unknown status. -/
def led_patterns (status : String) : List ℕ :=
  if status = "go" then [1, 0, 1, 0, 1, 0, 1, 0]
  else if status = "turning" then [1, 1, 1, 1, 0, 0, 0, 0]
  else if status = "obstacle" then [1, 1, 1, 1, 1, 1, 1, 1]
  else if status = "goal" then [0, 1, 0, 1, 0, 1, 0, 1]
  else if status = "stuck" then [1, 0, 0, 0, 0, 0, 0, 0]
  else List.replicate 8 0

/-- `update_leds` (source lines 39-63): applies the pattern for `status` to
the indicator bank. -/
def update_leds (status : String) (s : CtrlState) : CtrlState :=
  { s with ledPattern := led_patterns status }

/-- `main_navigation` (source lines 139-180).  Reads one snapshot, then:
hard collision (`> 100` on both front sensors) reverses both motors, counts a
crash and a stuck loop, and performs five `robot.step` calls whose return
values are discarded (lines 162-163); otherwise a frontal obstacle pivots and
counts a stuck loop; otherwise a clear right side arcs and resets the stuck
counter; otherwise it cruises and resets the stuck counter. -/
def main_navigation (snap : Snapshot) (s : CtrlState) : CtrlState :=
  if snap.left_front > 100 ∧ snap.right_front > 100 then
    let s1 := update_leds "obstacle" { s with crashes := s.crashes + 1 }
    { s1 with motorLeft := -0.5 * SPEED_LIMIT, motorRight := -0.5 * SPEED_LIMIT,
              stuckLoops := s1.stuckLoops + 1, stepsTaken := s1.stepsTaken + 5 }
  else if snap.left_front > 80 ∨ snap.right_front > 80 then
    let s1 := update_leds "turning" s
    { s1 with motorLeft := 0.4 * SPEED_LIMIT, motorRight := -0.4 * SPEED_LIMIT,
              stuckLoops := s1.stuckLoops + 1 }
  else if snap.right_side < 60 then
    let s1 := update_leds "turning" s
    { s1 with motorLeft := 0.6 * SPEED_LIMIT, motorRight := 0.2 * SPEED_LIMIT,
              stuckLoops := 0 }
  else
    let s1 := update_leds "go" s
    { s1 with motorLeft := 0.5 * SPEED_LIMIT, motorRight := 0.5 * SPEED_LIMIT,
              stuckLoops := 0 }

/-- The report record built by `show_current_results` at time `now` (source
lines 87-119): elapsed time `now - start`, current metrics, and status
`"Atascado"` when `stuck_loops >= MAX_STUCK`, else `"Navegando"`. -/
def mkReport (now : ℚ) (s : CtrlState) (isFinal : Bool) : Report :=
  { isFinal := isFinal
    totalTime := now - s.start
    travelled := s.travelled
    crashes := s.crashes
    goalDone := s.goalDone
    status := if s.stuckLoops ≥ MAX_STUCK then "Atascado" else "Navegando"
    stuckLoops := s.stuckLoops }

/-- The external report sink (the `open`/`f.write` block, source lines
108-119): the write either succeeds, producing the file lines, or raises. -/
def write_report_file (sinkFails : Bool) (r : Report) : Except String (List ReportLine) :=
  if sinkFails then Except.error "No se pudo guardar el archivo"
  else Except.ok (fileLines r)

/-- `show_current_results` (source lines 79-125): builds the report, attempts
the file write, and catches any write failure, turning it into a diagnostic
notice (line 124-125).  The outer `Except` is the exception behaviour seen by
the caller: it is always `ok`, and the state is returned untouched. -/
def show_current_results (sinkFails : Bool) (now : ℚ) (s : CtrlState)
    (isFinal : Bool) : Except String (Report × List String × CtrlState) :=
  let r := mkReport now s isFinal
  match write_report_file sinkFails r with
  | Except.ok _ => Except.ok (r, [], s)
  | Except.error e => Except.ok (r, [e], s)

/-- The periodic-report conditional at the bottom of the loop body (source
lines 197-200): when `current_time - last_report_time >= REPORT_INTERVAL` a
periodic report is emitted and `last_report_time` is set to `current_time`
itself (not advanced by the interval). -/
def periodic_report (now : ℚ) (s : CtrlState) : CtrlState :=
  if now - s.lastReportTime ≥ REPORT_INTERVAL then
    { s with reports := s.reports ++ [mkReport now s false],
             lastReportTime := now }
  else s

/-- One iteration of the `while` body (source lines 188-200): the navigation
decision on a fresh snapshot, then distance accumulation
`travelled += abs(v_mean * (STEP_DURATION / 1000))` from the commanded
velocities, then the periodic-report check at the current clock. -/
def loopBody (env : Env) (s : CtrlState) : CtrlState :=
  let s1 := main_navigation (env.sense s.decisions) { s with decisions := s.decisions + 1 }
  let v_mean := (s1.motorLeft + s1.motorRight) / 2
  let s2 := { s1 with travelled := s1.travelled + |v_mean * ((STEP_DURATION : ℚ) / 1000)| }
  periodic_report (env.timeAt s2.stepsTaken) s2

/-- The `while` condition (source line 187), evaluated left to right:
`robot.step` is called unconditionally (one more step), and the loop continues
when its result is not `-1`, the goal flag is unset, and
`stuck_loops < MAX_STUCK`. -/
def loop_check (env : Env) (s : CtrlState) : Bool × CtrlState :=
  let r := env.stepResult s.stepsTaken
  let s1 := { s with stepsTaken := s.stepsTaken + 1 }
  ((r != -1) && (!s1.goalDone) && decide (s1.stuckLoops < MAX_STUCK), s1)

/-- The main `while` loop (source lines 187-200), with explicit fuel: `none`
when the loop has not yet exited within `fuel` condition evaluations, `some`
of the state at exit otherwise. -/
def main_loop (env : Env) : ℕ → CtrlState → Option CtrlState
  | 0, _ => none
  | fuel + 1, s =>
    let c := loop_check env s
    if c.1 then main_loop env fuel (loopBody env c.2) else some c.2

/-- `n` unconditional iterations of the loop body (condition side effects
included), used to reason about telemetry accumulation per iteration. -/
def run_iters (env : Env) : ℕ → CtrlState → CtrlState
  | 0, s => s
  | n + 1, s => run_iters env n (loopBody env (loop_check env s).2)

/-- The code after the loop (source lines 203-213): motors forced to zero,
the `stuck` pattern shown when the run ended stuck, and the final report at
the end-of-run clock value. -/
def shutdown (env : Env) (s : CtrlState) : CtrlState :=
  let s1 := { s with motorLeft := 0, motorRight := 0 }
  let s2 := if s1.stuckLoops ≥ MAX_STUCK ∧ s1.goalDone = false
            then update_leds "stuck" s1 else s1
  { s2 with reports := s2.reports ++ [mkReport (env.timeAt s2.stepsTaken) s2 true] }

/-- The module-level initial state (source lines 27-28 and 129-135): motors
at zero, all metrics zeroed, `start` and `last_report_time` at the initial
clock value. -/
def initState (env : Env) : CtrlState :=
  { crashes := 0, goalDone := false, stuckLoops := 0, travelled := 0,
    start := env.timeAt 0, lastReportTime := env.timeAt 0,
    motorLeft := 0, motorRight := 0,
    ledPattern := List.replicate 8 0,
    stepsTaken := 0, decisions := 0, reports := [] }

/-- The whole program: run the loop from the initial state, then the
shutdown code, when the loop exits within `fuel`. -/
def run_controller (env : Env) (fuel : ℕ) : Option CtrlState :=
  (main_loop env fuel (initState env)).map (shutdown env)

/-- An environment whose every snapshot is a hard collision (`150 > 100` on
both front sensors), with the step call never returning the sentinel and a
constant clock. -/
def envCollision : Env :=
  { sense := fun _ => ⟨150, 150, 0⟩, stepResult := fun _ => 0, timeAt := fun _ => 0 }

/-- An environment whose every snapshot drives the frontal-obstacle pivot
branch (`90 > 80` on the front-left sensor, no collision), with the step call
never returning the sentinel and a constant clock. -/
def envTurning : Env :=
  { sense := fun _ => ⟨90, 0, 0⟩, stepResult := fun _ => 0, timeAt := fun _ => 0 }

/-- An environment whose every snapshot drives the cruise branch (no frontal
obstacle, right side not clear: `70 ≥ 60`), with the step call never returning
the sentinel and a constant clock. -/
def envCruise : Env :=
  { sense := fun _ => ⟨0, 0, 70⟩, stepResult := fun _ => 0, timeAt := fun _ => 0 }

/-- An environment whose every snapshot is a hard collision and whose step
call returns the `-1` sentinel from its third call (index 2) onward — i.e.
the simulation ends in the middle of the committed five-step reverse burst. -/
def envCollideLate : Env :=
  { sense := fun _ => ⟨150, 150, 0⟩,
    stepResult := fun n => if 2 ≤ n then -1 else 0,
    timeAt := fun _ => 0 }

/-- An environment whose step call returns the `-1` sentinel immediately. -/
def envHaltNow : Env :=
  { sense := fun _ => ⟨150, 150, 0⟩, stepResult := fun _ => -1, timeAt := fun _ => 0 }

/-- C1: for every snapshot with `prox[0] > 100` and `prox[7] > 100`, the
decision sets both motors to `-0.5 * SPEED_LIMIT`, shows the all-ones
`"obstacle"` pattern, increments `crashes` and `stuck_loops` by exactly one,
and performs the five committed reverse `robot.step` calls before returning
(so the reverse command is held for five consecutive simulation steps before
the next decision). -/
theorem C1_hard_collision (snap : Snapshot) (s : CtrlState)
    (h0 : snap.left_front > 100) (h7 : snap.right_front > 100) :
    main_navigation snap s =
      { s with crashes := s.crashes + 1,
               stuckLoops := s.stuckLoops + 1,
               motorLeft := -0.5 * SPEED_LIMIT,
               motorRight := -0.5 * SPEED_LIMIT,
               ledPattern := [1, 1, 1, 1, 1, 1, 1, 1],
               stepsTaken := s.stepsTaken + 5 } := by
  rw [main_navigation, if_pos ⟨h0, h7⟩]
  rfl

/-- Witness for C1 at the concrete collision snapshot `⟨150, 150, 0⟩` and the
initial state of `envCollision`. -/
theorem C1_hard_collision_witness :
    main_navigation ⟨150, 150, 0⟩ (initState envCollision) =
      { initState envCollision with
          crashes := (initState envCollision).crashes + 1,
          stuckLoops := (initState envCollision).stuckLoops + 1,
          motorLeft := -0.5 * SPEED_LIMIT,
          motorRight := -0.5 * SPEED_LIMIT,
          ledPattern := [1, 1, 1, 1, 1, 1, 1, 1],
          stepsTaken := (initState envCollision).stepsTaken + 5 } :=
  C1_hard_collision ⟨150, 150, 0⟩ (initState envCollision)
    (by norm_num) (by norm_num)

/-- C2: for every snapshot that is not a hard collision, the decision follows
the remaining tiers in order: a frontal obstacle (`prox[0] > 80` or
`prox[7] > 80`) pivots with `(0.4*SPEED_LIMIT, -0.4*SPEED_LIMIT)`, the
`"turning"` pattern, and `stuck_loops + 1`; otherwise `prox[2] < 60` arcs with
`(0.6*SPEED_LIMIT, 0.2*SPEED_LIMIT)`, the `"turning"` pattern, and
`stuck_loops` reset to `0`; otherwise it cruises with
`(0.5*SPEED_LIMIT, 0.5*SPEED_LIMIT)`, the `"go"` pattern, and `stuck_loops`
reset to `0`. -/
theorem C2_priority_tiers (snap : Snapshot) (s : CtrlState)
    (hnc : ¬(snap.left_front > 100 ∧ snap.right_front > 100)) :
    main_navigation snap s =
      if snap.left_front > 80 ∨ snap.right_front > 80 then
        { s with motorLeft := 0.4 * SPEED_LIMIT, motorRight := -0.4 * SPEED_LIMIT,
                 ledPattern := [1, 1, 1, 1, 0, 0, 0, 0],
                 stuckLoops := s.stuckLoops + 1 }
      else if snap.right_side < 60 then
        { s with motorLeft := 0.6 * SPEED_LIMIT, motorRight := 0.2 * SPEED_LIMIT,
                 ledPattern := [1, 1, 1, 1, 0, 0, 0, 0],
                 stuckLoops := 0 }
      else
        { s with motorLeft := 0.5 * SPEED_LIMIT, motorRight := 0.5 * SPEED_LIMIT,
                 ledPattern := [1, 0, 1, 0, 1, 0, 1, 0],
                 stuckLoops := 0 } := by
  rw [main_navigation, if_neg hnc]
  split_ifs <;> rfl

/-- Witness for C2 at the concrete pivot snapshot `⟨90, 0, 0⟩` and the initial
state of `envTurning`. -/
theorem C2_priority_tiers_witness :
    main_navigation ⟨90, 0, 0⟩ (initState envTurning) =
      if (90 : ℚ) > 80 ∨ (0 : ℚ) > 80 then
        { initState envTurning with
            motorLeft := 0.4 * SPEED_LIMIT, motorRight := -0.4 * SPEED_LIMIT,
            ledPattern := [1, 1, 1, 1, 0, 0, 0, 0],
            stuckLoops := (initState envTurning).stuckLoops + 1 }
      else if (0 : ℚ) < 60 then
        { initState envTurning with
            motorLeft := 0.6 * SPEED_LIMIT, motorRight := 0.2 * SPEED_LIMIT,
            ledPattern := [1, 1, 1, 1, 0, 0, 0, 0],
            stuckLoops := 0 }
      else
        { initState envTurning with
            motorLeft := 0.5 * SPEED_LIMIT, motorRight := 0.5 * SPEED_LIMIT,
            ledPattern := [1, 0, 1, 0, 1, 0, 1, 0],
            stuckLoops := 0 } :=
  C2_priority_tiers ⟨90, 0, 0⟩ (initState envTurning) (by norm_num)

/-- The controller state after `k` iterations of the loop under `envTurning`:
every decision takes the pivot branch, so `stuck_loops = k`, no crashes, no
distance (the pivot command has mean velocity zero), and one step call per
iteration. -/
def turnState (k : ℕ) : CtrlState :=
  { crashes := 0, goalDone := false, stuckLoops := k, travelled := 0,
    start := 0, lastReportTime := 0,
    motorLeft := if k = 0 then 0 else 0.4 * SPEED_LIMIT,
    motorRight := if k = 0 then 0 else -0.4 * SPEED_LIMIT,
    ledPattern := if k = 0 then List.replicate 8 0 else [1, 1, 1, 1, 0, 0, 0, 0],
    stepsTaken := k, decisions := k, reports := [] }

lemma initState_envTurning : initState envTurning = turnState 0 := rfl

lemma led_patterns_go : led_patterns "go" = [1, 0, 1, 0, 1, 0, 1, 0] := rfl

lemma led_patterns_turning : led_patterns "turning" = [1, 1, 1, 1, 0, 0, 0, 0] := rfl

lemma led_patterns_obstacle : led_patterns "obstacle" = [1, 1, 1, 1, 1, 1, 1, 1] := rfl

lemma led_patterns_stuck : led_patterns "stuck" = [1, 0, 0, 0, 0, 0, 0, 0] := rfl

lemma turnState_check (k : ℕ) (hk : k < 50) :
    loop_check envTurning (turnState k) =
      (true, { turnState k with stepsTaken := k + 1 }) := by
  simp [loop_check, envTurning, turnState, MAX_STUCK, hk]

lemma turnState_body (k : ℕ) :
    loopBody envTurning { turnState k with stepsTaken := k + 1 } =
      turnState (k + 1) := by
  norm_num [loopBody, main_navigation, update_leds, led_patterns_turning,
    envTurning, turnState, periodic_report, REPORT_INTERVAL, mkReport]

lemma turn_loop_none : ∀ m k, k + m = 50 →
    main_loop envTurning m (turnState k) = none := by
  intro m
  induction m with
  | zero => intro k _; rfl
  | succ m ih =>
    intro k hk
    rw [main_loop]
    simp only [turnState_check k (by omega), if_true]
    rw [turnState_body k]
    exact ih (k + 1) (by omega)

lemma turn_loop_exit : ∀ m k, k + m = 50 →
    main_loop envTurning (m + 1) (turnState k) =
      some { turnState 50 with stepsTaken := 51 } := by
  intro m
  induction m with
  | zero =>
    intro k hk
    have hk50 : k = 50 := by omega
    subst hk50
    rw [main_loop]
    simp [loop_check, envTurning, turnState, MAX_STUCK]
  | succ m ih =>
    intro k hk
    rw [main_loop]
    simp only [turnState_check k (by omega), if_true]
    rw [turnState_body k]
    exact ih (k + 1) (by omega)

/-- C3: under the synthetic sensor stream that yields 50 consecutive
`"turning"` decisions, the loop has not exited within 50 condition checks,
and at the 51st check it halts with exactly 50 decisions taken and
`stuck_loops = 50`; the shutdown code then zeroes both motors, shows the
`"stuck"` indicator pattern, and emits a normal final report whose status is
the stuck label `"Atascado"`. -/
theorem C3_stuck_halt :
    main_loop envTurning 50 (initState envTurning) = none ∧
    run_controller envTurning 51 =
      some { crashes := 0, goalDone := false, stuckLoops := 50, travelled := 0,
             start := 0, lastReportTime := 0, motorLeft := 0, motorRight := 0,
             ledPattern := [1, 0, 0, 0, 0, 0, 0, 0],
             stepsTaken := 51, decisions := 50,
             reports := [{ isFinal := true, totalTime := 0, travelled := 0,
                           crashes := 0, goalDone := false,
                           status := "Atascado", stuckLoops := 50 }] } := by
  constructor
  · rw [initState_envTurning]
    exact turn_loop_none 50 0 rfl
  · rw [run_controller, initState_envTurning, turn_loop_exit 50 0 rfl]
    norm_num [shutdown, update_leds, led_patterns_stuck, mkReport, turnState,
      envTurning, MAX_STUCK, Option.map]

/-- C4 counterexample: under `envCollideLate` the step call returns the `-1`
sentinel from its third call (index 2) onward, which falls on the second step
of the committed reverse burst; yet the run performs all seven step calls
(the burst is never aborted: the five burst calls at indices 1-5 discard their
results, and the loop only observes the sentinel at the next head check,
index 6).  Were the sentinel checked on every simulation step and the loop
halted immediately, no step call would be made past index `2 + 1`. -/
theorem C4_counterexample :
    envCollideLate.stepResult 2 = -1 ∧
    main_loop envCollideLate 2 (initState envCollideLate) = some
      { crashes := 1, goalDone := false, stuckLoops := 1, travelled := 0.20096,
        start := 0, lastReportTime := 0,
        motorLeft := -0.5 * SPEED_LIMIT, motorRight := -0.5 * SPEED_LIMIT,
        ledPattern := [1, 1, 1, 1, 1, 1, 1, 1],
        stepsTaken := 7, decisions := 1, reports := [] } ∧
    ¬(∀ n : ℕ, n + 1 < 7 → envCollideLate.stepResult n ≠ -1) := by
  refine ⟨rfl, ?_, ?_⟩
  · norm_num [main_loop, loop_check, loopBody, main_navigation, update_leds,
      led_patterns_obstacle, periodic_report, envCollideLate, initState,
      REPORT_INTERVAL, mkReport, MAX_STUCK, SPEED_LIMIT, STEP_DURATION]
  · intro h
    exact h 2 (by omega) rfl

/-- C4 as amended: the step sentinel is checked once per outer loop iteration,
at the head of the `while` condition — a `-1` there halts the loop at once —
but the five step calls of the committed reverse burst discard their return
values: the burst always performs all five calls whatever the platform
returns, and a sentinel raised during the burst only takes effect at the next
head check. -/
theorem C4_sentinel_amended (env : Env) (fuel : ℕ) (s : CtrlState) (snap : Snapshot)
    (hstop : env.stepResult s.stepsTaken = -1)
    (hcol : snap.left_front > 100 ∧ snap.right_front > 100) :
    main_loop env (fuel + 1) s = some { s with stepsTaken := s.stepsTaken + 1 } ∧
    (main_navigation snap s).stepsTaken = s.stepsTaken + 5 := by
  constructor
  · rw [main_loop]
    simp [loop_check, hstop]
  · rw [main_navigation, if_pos hcol]
    rfl

/-- Witness for C4 as amended: under `envHaltNow` the very first step call
returns the sentinel and the loop exits after that single call; and a
collision decision from the same state always performs its five burst step
calls. -/
theorem C4_sentinel_amended_witness :
    main_loop envHaltNow (0 + 1) (initState envHaltNow) =
      some { initState envHaltNow with
               stepsTaken := (initState envHaltNow).stepsTaken + 1 } ∧
    (main_navigation ⟨150, 150, 0⟩ (initState envHaltNow)).stepsTaken =
      (initState envHaltNow).stepsTaken + 5 :=
  C4_sentinel_amended envHaltNow 0 (initState envHaltNow) ⟨150, 150, 0⟩
    rfl (by norm_num)

lemma periodic_report_travelled (now : ℚ) (s : CtrlState) :
    (periodic_report now s).travelled = s.travelled := by
  unfold periodic_report
  split_ifs <;> rfl

lemma periodic_report_motorLeft (now : ℚ) (s : CtrlState) :
    (periodic_report now s).motorLeft = s.motorLeft := by
  unfold periodic_report
  split_ifs <;> rfl

lemma periodic_report_motorRight (now : ℚ) (s : CtrlState) :
    (periodic_report now s).motorRight = s.motorRight := by
  unfold periodic_report
  split_ifs <;> rfl

lemma main_navigation_travelled (snap : Snapshot) (s : CtrlState) :
    (main_navigation snap s).travelled = s.travelled := by
  unfold main_navigation update_leds
  split_ifs <;> rfl

lemma abs_rev_speed : |(-0.5 * SPEED_LIMIT)| = 0.5 * SPEED_LIMIT := by
  rw [abs_of_nonpos (by norm_num [SPEED_LIMIT])]
  ring

lemma abs_fwd_speed : |(0.5 * SPEED_LIMIT)| = 0.5 * SPEED_LIMIT :=
  abs_of_nonneg (by norm_num [SPEED_LIMIT])

/-- C5 counterexample: under `envCollideLate`-like sensors with no sentinel
(`envCollision`), a single loop iteration takes the hard-collision branch:
six step calls are made in that iteration (one at the loop head, five in the
committed reverse burst), the last five of them with the constant command
`(-0.5*SPEED_LIMIT, -0.5*SPEED_LIMIT)` active, yet `travelled` grows by a
single quantum `|v|*0.064` — not by one quantum per simulation step as the
claim states. -/
theorem C5_counterexample :
    run_iters envCollision 1 (initState envCollision) =
      { crashes := 1, goalDone := false, stuckLoops := 1, travelled := 0.20096,
        start := 0, lastReportTime := 0,
        motorLeft := -0.5 * SPEED_LIMIT, motorRight := -0.5 * SPEED_LIMIT,
        ledPattern := [1, 1, 1, 1, 1, 1, 1, 1],
        stepsTaken := 6, decisions := 1, reports := [] } ∧
    (0.20096 : ℚ) = |(-0.5 * SPEED_LIMIT)| * ((STEP_DURATION : ℚ) / 1000) ∧
    (0.20096 : ℚ) ≠ 5 * (|(-0.5 * SPEED_LIMIT)| * ((STEP_DURATION : ℚ) / 1000)) := by
  refine ⟨?_, by rw [abs_rev_speed]; norm_num [SPEED_LIMIT, STEP_DURATION],
    by rw [abs_rev_speed]; norm_num [SPEED_LIMIT, STEP_DURATION]⟩
  norm_num [run_iters, loop_check, loopBody, main_navigation, update_leds,
    led_patterns_obstacle, periodic_report, envCollision, initState,
    REPORT_INTERVAL, mkReport, MAX_STUCK, SPEED_LIMIT, STEP_DURATION]

lemma cruise_iters_travelled (env : Env)
    (hcr : ∀ i, ¬((env.sense i).left_front > 100 ∧ (env.sense i).right_front > 100) ∧
      ¬((env.sense i).left_front > 80 ∨ (env.sense i).right_front > 80) ∧
      ¬((env.sense i).right_side < 60)) :
    ∀ (N : ℕ) (s : CtrlState),
      (run_iters env N s).travelled =
        s.travelled + N * (0.5 * SPEED_LIMIT * ((STEP_DURATION : ℚ) / 1000)) := by
  intro N
  induction N with
  | zero => intro s; simp [run_iters]
  | succ n ih =>
    intro s
    have hbody : (loopBody env ((loop_check env s).2)).travelled =
        s.travelled + 0.5 * SPEED_LIMIT * ((STEP_DURATION : ℚ) / 1000) := by
      obtain ⟨h1, h2, h3⟩ := hcr ((loop_check env s).2).decisions
      simp only [loopBody, periodic_report_travelled]
      rw [main_navigation, if_neg (by simpa using h1), if_neg (by simpa using h2),
        if_neg (by simpa using h3)]
      show ((loop_check env s).2).travelled + _ = _
      simp only [loop_check]
      norm_num [update_leds, SPEED_LIMIT, STEP_DURATION]
    rw [run_iters, ih, hbody]
    push_cast
    ring

/-- C5 as amended: telemetry accumulation happens once per loop iteration
(the five step calls of a committed reverse burst do not accumulate), adding
`|((left + right) / 2)| * dt` with `dt = STEP_DURATION/1000 = 0.064 s` from
the commanded velocities of that iteration; hence after `N` iterations of the
constant cruise command `(v, v)` with `v = 0.5 * SPEED_LIMIT`, `travelled`
equals `N * |v| * 0.064` exactly in rational arithmetic. -/
theorem C5_accumulation_amended (env : Env) (s : CtrlState) (N : ℕ)
    (hcr : ∀ i, ¬((env.sense i).left_front > 100 ∧ (env.sense i).right_front > 100) ∧
      ¬((env.sense i).left_front > 80 ∨ (env.sense i).right_front > 80) ∧
      ¬((env.sense i).right_side < 60)) :
    (loopBody env s).travelled =
      s.travelled +
        |((loopBody env s).motorLeft + (loopBody env s).motorRight) / 2| *
          ((STEP_DURATION : ℚ) / 1000) ∧
    (run_iters env N (initState env)).travelled =
      N * |0.5 * SPEED_LIMIT| * ((STEP_DURATION : ℚ) / 1000) := by
  constructor
  · simp only [loopBody, periodic_report_travelled, periodic_report_motorLeft,
      periodic_report_motorRight, main_navigation_travelled]
    rw [abs_mul]
    norm_num [STEP_DURATION]
  · rw [cruise_iters_travelled env hcr N (initState env), abs_fwd_speed]
    show (0 : ℚ) + _ = _
    ring

/-- Witness for C5 as amended at the concrete cruise environment `envCruise`
and `N = 2`. -/
theorem C5_accumulation_amended_witness :
    (loopBody envCruise (initState envCruise)).travelled =
      (initState envCruise).travelled +
        |((loopBody envCruise (initState envCruise)).motorLeft +
            (loopBody envCruise (initState envCruise)).motorRight) / 2| *
          ((STEP_DURATION : ℚ) / 1000) ∧
    (run_iters envCruise 2 (initState envCruise)).travelled =
      2 * |0.5 * SPEED_LIMIT| * ((STEP_DURATION : ℚ) / 1000) :=
  C5_accumulation_amended envCruise (initState envCruise) 2
    (by intro i; norm_num [envCruise])

/-- C6: the periodic-report check fires on any loop iteration whose clock
value satisfies `now - last_report_time ≥ REPORT_INTERVAL`, appending one
periodic report and setting `last_report_time` to that `now` itself (not to
`last_report_time + REPORT_INTERVAL`, so drift under irregular steps is
preserved); when the difference is below the interval the state is untouched. -/
theorem C6_report_trigger (now : ℚ) (s : CtrlState) :
    (now - s.lastReportTime ≥ REPORT_INTERVAL →
      periodic_report now s =
        { s with reports := s.reports ++ [mkReport now s false],
                 lastReportTime := now }) ∧
    (now - s.lastReportTime < REPORT_INTERVAL → periodic_report now s = s) := by
  constructor
  · intro h
    rw [periodic_report, if_pos h]
  · intro h
    rw [periodic_report, if_neg (not_le.mpr h)]

/-- Witness for C6: from the initial state (whose `last_report_time` is 0),
a clock value of 20 fires the periodic report and resets `last_report_time`
to 20, while a clock value of 5 leaves the state untouched. -/
theorem C6_report_trigger_witness :
    periodic_report 20 (initState envCruise) =
      { initState envCruise with
          reports := (initState envCruise).reports ++
            [mkReport 20 (initState envCruise) false],
          lastReportTime := 20 } ∧
    periodic_report 5 (initState envCruise) = initState envCruise :=
  ⟨(C6_report_trigger 20 (initState envCruise)).1
      (by norm_num [initState, envCruise, REPORT_INTERVAL]),
   (C6_report_trigger 5 (initState envCruise)).2
      (by norm_num [initState, envCruise, REPORT_INTERVAL])⟩

/-- C7 counterexample: a final report from a non-stuck state carries the very
same status label `"Navegando"` (navigating) as a periodic report — there is
no distinct completed label for final reports — and the file rendition of
that final report does contain the stuck-loop counter line, which the claim
says appears in periodic reports only. -/
theorem C7_counterexample :
    (mkReport 20 (initState envCruise) true).status = "Navegando" ∧
    (mkReport 20 (initState envCruise) true).status =
      (mkReport 20 (initState envCruise) false).status ∧
    ReportLine.stuckIters ((initState envCruise).stuckLoops) ∈
      fileLines (mkReport 20 (initState envCruise) true) := by
  refine ⟨rfl, rfl, ?_⟩
  simp [fileLines, consoleLines, mkReport]

/-- C7 as amended: every report (periodic and final, console and file)
contains the elapsed time, travelled distance, crash count, goal flag, and a
status that is the stuck label `"Atascado"` exactly when
`stuck_loops ≥ MAX_STUCK` and the navigating label `"Navegando"` otherwise —
final reports use the same status labels as periodic ones; the stuck-loop
counter is written in the file rendition of every report (final included) and
never appears in the console rendition. -/
theorem C7_report_contents (now : ℚ) (s : CtrlState) (fin : Bool) :
    consoleLines (mkReport now s fin) =
      [ ReportLine.header fin,
        ReportLine.elapsed (now - s.start),
        ReportLine.distance s.travelled,
        ReportLine.collisions s.crashes,
        ReportLine.goalReached s.goalDone,
        ReportLine.statusLine
          (if s.stuckLoops ≥ MAX_STUCK then "Atascado" else "Navegando") ] ∧
    fileLines (mkReport now s fin) =
      consoleLines (mkReport now s fin) ++ [ReportLine.stuckIters s.stuckLoops] ∧
    ReportLine.stuckIters s.stuckLoops ∉ consoleLines (mkReport now s fin) := by
  refine ⟨rfl, rfl, ?_⟩
  simp [consoleLines, mkReport]

/-- C8: a failure of the report sink is caught inside the reporting
operation: whatever the sink does, `show_current_results` returns normally
(`Except.ok`, never an error to the control loop), with the state passed back
unchanged and the failure reduced to a diagnostic notice — even though the
sink itself does raise on a failing write. -/
theorem C8_reporter_never_fails (sinkFails : Bool) (now : ℚ) (s : CtrlState)
    (fin : Bool) :
    show_current_results sinkFails now s fin =
      Except.ok (mkReport now s fin,
        (if sinkFails then ["No se pudo guardar el archivo"] else []), s) ∧
    write_report_file true (mkReport now s fin) =
      Except.error "No se pudo guardar el archivo" := by
  cases sinkFails <;> simp [show_current_results, write_report_file]

lemma periodic_report_goalDone (now : ℚ) (s : CtrlState) :
    (periodic_report now s).goalDone = s.goalDone := by
  unfold periodic_report
  split_ifs <;> rfl

lemma main_navigation_goalDone (snap : Snapshot) (s : CtrlState) :
    (main_navigation snap s).goalDone = s.goalDone := by
  unfold main_navigation update_leds
  split_ifs <;> rfl

lemma main_navigation_reports (snap : Snapshot) (s : CtrlState) :
    (main_navigation snap s).reports = s.reports := by
  unfold main_navigation update_leds
  split_ifs <;> rfl

lemma loopBody_goal_inv (env : Env) (s : CtrlState)
    (hg : s.goalDone = false) (hr : ∀ r ∈ s.reports, r.goalDone = false) :
    (loopBody env s).goalDone = false ∧
      ∀ r ∈ (loopBody env s).reports, r.goalDone = false := by
  have hg1 : (main_navigation (env.sense s.decisions)
      { s with decisions := s.decisions + 1 }).goalDone = false := by
    rw [main_navigation_goalDone]
    exact hg
  have hr1 : ∀ r ∈ (main_navigation (env.sense s.decisions)
      { s with decisions := s.decisions + 1 }).reports, r.goalDone = false := by
    rw [main_navigation_reports]
    exact hr
  simp only [loopBody]
  unfold periodic_report
  split_ifs
  · refine ⟨hg1, ?_⟩
    intro r hrm
    rcases List.mem_append.mp hrm with h | h
    · exact hr1 r h
    · rw [List.mem_singleton] at h
      subst h
      exact hg1
  · exact ⟨hg1, hr1⟩

lemma main_loop_goal_inv (env : Env) :
    ∀ (fuel : ℕ) (s F : CtrlState), main_loop env fuel s = some F →
      s.goalDone = false → (∀ r ∈ s.reports, r.goalDone = false) →
      F.goalDone = false ∧ ∀ r ∈ F.reports, r.goalDone = false := by
  intro fuel
  induction fuel with
  | zero =>
    intro s F h
    exact absurd h (by simp [main_loop])
  | succ n ih =>
    intro s F h hg hr
    rw [main_loop] at h
    by_cases hc : (loop_check env s).1 = true
    · rw [if_pos hc] at h
      obtain ⟨hg3, hr3⟩ := loopBody_goal_inv env (loop_check env s).2 hg hr
      exact ih _ F h hg3 hr3
    · rw [if_neg hc] at h
      injection h with h2
      subst h2
      exact ⟨hg, hr⟩

lemma shutdown_goal_inv (env : Env) (s : CtrlState) (hg : s.goalDone = false)
    (hr : ∀ r ∈ s.reports, r.goalDone = false) :
    (shutdown env s).goalDone = false ∧
      ∀ r ∈ (shutdown env s).reports, r.goalDone = false := by
  simp only [shutdown, update_leds]
  split_ifs <;> refine ⟨hg, ?_⟩ <;> intro r hrm <;>
    rcases List.mem_append.mp hrm with h | h
  · exact hr r h
  · rw [List.mem_singleton] at h
    subst h
    exact hg
  · exact hr r h
  · rw [List.mem_singleton] at h
    subst h
    exact hg

/-- C9: the goal flag is never set true by any operation: from the initial
state (where it is false and no report exists), any exit state of the control
loop still has `goal_done = false`, and every report emitted by the loop and
by the shutdown code — the final report included — prints the goal flag as
not reached. -/
theorem C9_goal_never_true (env : Env) (fuel : ℕ) (F : CtrlState)
    (h : main_loop env fuel (initState env) = some F) :
    F.goalDone = false ∧ (shutdown env F).goalDone = false ∧
      ((shutdown env F).reports.all fun r => !r.goalDone) = true := by
  obtain ⟨h1, h2⟩ := main_loop_goal_inv env fuel (initState env) F h rfl
    (by intro r hrm; exact absurd hrm (List.not_mem_nil r))
  obtain ⟨h3, h4⟩ := shutdown_goal_inv env F h1 h2
  refine ⟨h1, h3, ?_⟩
  rw [List.all_eq_true]
  intro r hrm
  rw [h4 r hrm]
  rfl

/-- Witness for C9: under `envHaltNow` the loop exits after one condition
check, and the exit state, the shutdown state and all reports carry a false
goal flag. -/
theorem C9_goal_never_true_witness :
    ({ initState envHaltNow with stepsTaken := 1 } : CtrlState).goalDone = false ∧
    (shutdown envHaltNow { initState envHaltNow with stepsTaken := 1 }).goalDone = false ∧
    ((shutdown envHaltNow { initState envHaltNow with stepsTaken := 1 }).reports.all
      fun r => !r.goalDone) = true :=
  C9_goal_never_true envHaltNow 1 { initState envHaltNow with stepsTaken := 1 } rfl

lemma main_navigation_motors (snap : Snapshot) (s : CtrlState) :
    ((main_navigation snap s).motorLeft = -0.5 * SPEED_LIMIT ∧
      (main_navigation snap s).motorRight = -0.5 * SPEED_LIMIT) ∨
    ((main_navigation snap s).motorLeft = 0.4 * SPEED_LIMIT ∧
      (main_navigation snap s).motorRight = -0.4 * SPEED_LIMIT) ∨
    ((main_navigation snap s).motorLeft = 0.6 * SPEED_LIMIT ∧
      (main_navigation snap s).motorRight = 0.2 * SPEED_LIMIT) ∨
    ((main_navigation snap s).motorLeft = 0.5 * SPEED_LIMIT ∧
      (main_navigation snap s).motorRight = 0.5 * SPEED_LIMIT) := by
  unfold main_navigation update_leds
  split_ifs
  · exact Or.inl ⟨rfl, rfl⟩
  · exact Or.inr (Or.inl ⟨rfl, rfl⟩)
  · exact Or.inr (Or.inr (Or.inl ⟨rfl, rfl⟩))
  · exact Or.inr (Or.inr (Or.inr ⟨rfl, rfl⟩))

/-- C10: every command issued by a navigation decision is bounded by
`0.6 * SPEED_LIMIT` in magnitude on the left wheel and `0.5 * SPEED_LIMIT`
on the right wheel — both maxima attained (left by the arc branch, right by
the cruise branch) — strictly inside the `[-SPEED_LIMIT, SPEED_LIMIT]`
envelope; no decision ever commands a zero wheel velocity, which occurs only
in the initial state and after the shutdown code zeroes the motors. -/
theorem C10_velocity_envelope (env : Env) (snap : Snapshot) (s : CtrlState) :
    |(main_navigation snap s).motorLeft| ≤ 0.6 * SPEED_LIMIT ∧
    |(main_navigation snap s).motorRight| ≤ 0.5 * SPEED_LIMIT ∧
    0.6 * SPEED_LIMIT < SPEED_LIMIT ∧
    (main_navigation snap s).motorLeft ≠ 0 ∧
    (main_navigation snap s).motorRight ≠ 0 ∧
    (main_navigation ⟨0, 0, 0⟩ s).motorLeft = 0.6 * SPEED_LIMIT ∧
    (main_navigation ⟨0, 0, 70⟩ s).motorRight = 0.5 * SPEED_LIMIT ∧
    (initState env).motorLeft = 0 ∧ (initState env).motorRight = 0 ∧
    (shutdown env s).motorLeft = 0 ∧ (shutdown env s).motorRight = 0 := by
  obtain hm := main_navigation_motors snap s
  refine ⟨?_, ?_, by norm_num [SPEED_LIMIT], ?_, ?_, ?_, ?_, rfl, rfl, ?_, ?_⟩
  · rcases hm with ⟨hl, _⟩ | ⟨hl, _⟩ | ⟨hl, _⟩ | ⟨hl, _⟩ <;> rw [hl, abs_le] <;>
      constructor <;> norm_num [SPEED_LIMIT]
  · rcases hm with ⟨_, hr⟩ | ⟨_, hr⟩ | ⟨_, hr⟩ | ⟨_, hr⟩ <;> rw [hr, abs_le] <;>
      constructor <;> norm_num [SPEED_LIMIT]
  · rcases hm with ⟨hl, _⟩ | ⟨hl, _⟩ | ⟨hl, _⟩ | ⟨hl, _⟩ <;> rw [hl] <;>
      norm_num [SPEED_LIMIT]
  · rcases hm with ⟨_, hr⟩ | ⟨_, hr⟩ | ⟨_, hr⟩ | ⟨_, hr⟩ <;> rw [hr] <;>
      norm_num [SPEED_LIMIT]
  · norm_num [main_navigation, update_leds]
  · norm_num [main_navigation, update_leds]
  · simp only [shutdown, update_leds]
    split_ifs <;> rfl
  · simp only [shutdown, update_leds]
    split_ifs <;> rfl
